import Mathlib

/-!
Verification of the authenticated-request core of a Coinbase exchange client
(`src/private_client/private_client.rs`, `src/error.rs`).

The development shallowly embeds the signing pipeline (prehash construction,
base64 secret decoding, HMAC-SHA256, base64 output), the header assembly,
the deposit/withdrawal query-string builders, and the error taxonomy.
External primitives the source consumes through library interfaces
(the `base64` crate, `crypto`'s HMAC-SHA256, UTF-8 byte access) are given
concrete executable models below; machine bytes and 32-bit words are `Nat`
with explicit truncation.
-/

/-- Truncate to a 32-bit word, as every SHA-256 arithmetic step does. -/
def w32 (x : Nat) : Nat := x % 4294967296

/-- Rotate a 32-bit word right by `n` bits. -/
def rotr (n x : Nat) : Nat := w32 ((x >>> n) ||| (x <<< (32 - n)))

/-- SHA-256 big sigma 0. -/
def bsig0 (x : Nat) : Nat := rotr 2 x ^^^ rotr 13 x ^^^ rotr 22 x

/-- SHA-256 big sigma 1. -/
def bsig1 (x : Nat) : Nat := rotr 6 x ^^^ rotr 11 x ^^^ rotr 25 x

/-- SHA-256 small sigma 0. -/
def ssig0 (x : Nat) : Nat := rotr 7 x ^^^ rotr 18 x ^^^ (x >>> 3)

/-- SHA-256 small sigma 1. -/
def ssig1 (x : Nat) : Nat := rotr 17 x ^^^ rotr 19 x ^^^ (x >>> 10)

/-- SHA-256 choice function; complement taken by xor against the 32-bit mask. -/
def chf (x y z : Nat) : Nat := (x &&& y) ^^^ ((x ^^^ 4294967295) &&& z)

/-- SHA-256 majority function. -/
def majf (x y z : Nat) : Nat := (x &&& y) ^^^ (x &&& z) ^^^ (y &&& z)

/-- The 64 SHA-256 round constants of FIPS 180-4, written in decimal. -/
def sha256K : List Nat :=
  [1116352408, 1899447441, 3049323471, 3921009573, 961987163, 1508970993,
   2453635748, 2870763221, 3624381080, 310598401, 607225278, 1426881987,
   1925078388, 2162078206, 2614888103, 3248222580, 3835390401, 4022224774,
   264347078, 604807628, 770255983, 1249150122, 1555081692, 1996064986,
   2554220882, 2821834349, 2952996808, 3210313671, 3336571891, 3584528711,
   113926993, 338241895, 666307205, 773529912, 1294757372, 1396182291,
   1695183700, 1986661051, 2177026350, 2456956037, 2730485921, 2820302411,
   3259730800, 3345764771, 3516065817, 3600352804, 4094571909, 275423344,
   430227734, 506948616, 659060556, 883997877, 958139571, 1322822218,
   1537002063, 1747873779, 1955562222, 2024104815, 2227730452, 2361852424,
   2428436474, 2756734187, 3204031479, 3329325298]

/-- The SHA-256 initial hash state of FIPS 180-4, written in decimal. -/
def sha256H0 : List Nat :=
  [1779033703, 3144134277, 1013904242, 2773480762,
   1359893119, 2600822924, 528734635, 1541459225]

/-- Group a byte list into big-endian 32-bit words (dropping a ragged tail,
which never occurs on 64-byte blocks). -/
def toWords : List Nat → List Nat
  | a :: b :: c :: d :: rest => ((((a <<< 8) ||| b) <<< 8 ||| c) <<< 8 ||| d) :: toWords rest
  | _ => []

/-- Split a byte list into blocks of 64, with an explicit fuel bound. -/
def chunk64 : Nat → List Nat → List (List Nat)
  | 0, _ => []
  | _, [] => []
  | fuel + 1, bytes => bytes.take 64 :: chunk64 fuel (bytes.drop 64)

/-- Extend a 16-word block to the 64-entry SHA-256 message schedule. -/
def sha256schedule (ws : List Nat) : List Nat :=
  (List.range 48).foldl (fun w _ =>
    let i := w.length
    w ++ [w32 (ssig1 (w.getD (i - 2) 0) + w.getD (i - 7) 0 +
               ssig0 (w.getD (i - 15) 0) + w.getD (i - 16) 0)]) ws

/-- One SHA-256 compression step over a 64-byte block. -/
def sha256compress (h : List Nat) (block : List Nat) : List Nat :=
  let w := sha256schedule (toWords block)
  let st := (List.range 64).foldl (fun st i =>
    match st with
    | [a, b, c, d, e, f, g, hh] =>
      let t1 := w32 (hh + bsig1 e + chf e f g + sha256K.getD i 0 + w.getD i 0)
      let t2 := w32 (bsig0 a + majf a b c)
      [w32 (t1 + t2), a, b, c, w32 (d + t1), e, f, g]
    | other => other) h
  List.zipWith (fun x y => w32 (x + y)) h st

/-- The 8-byte big-endian encoding of a length in bits. -/
def be64bytes (n : Nat) : List Nat :=
  [(n >>> 56) &&& 255, (n >>> 48) &&& 255, (n >>> 40) &&& 255, (n >>> 32) &&& 255,
   (n >>> 24) &&& 255, (n >>> 16) &&& 255, (n >>> 8) &&& 255, n &&& 255]

/-- SHA-256 padding: a 0x80 byte, zeros to 56 mod 64, then the bit length. -/
def sha256pad (msg : List Nat) : List Nat :=
  msg ++ 0x80 :: List.replicate ((119 - msg.length % 64) % 64) 0 ++ be64bytes (msg.length * 8)

/-- Serialize the final state words back to bytes, big-endian. -/
def wordsToBytes (ws : List Nat) : List Nat :=
  ws.foldr (fun w acc =>
    ((w >>> 24) &&& 255) :: ((w >>> 16) &&& 255) :: ((w >>> 8) &&& 255) :: (w &&& 255) :: acc) []

/-- SHA-256 of a byte list: the hash primitive the source consumes from the
`crypto` crate. -/
def sha256 (msg : List Nat) : List Nat :=
  let padded := sha256pad msg
  wordsToBytes ((chunk64 padded.length padded).foldl sha256compress sha256H0)

/-- HMAC-SHA256 with the standard 64-byte block, ipad 0x36 and opad 0x5c:
the MAC primitive the source consumes from the `crypto` crate. -/
def hmacSha256 (key msg : List Nat) : List Nat :=
  let k0 := if 64 < key.length then sha256 key else key
  let kp := k0 ++ List.replicate (64 - k0.length) 0
  sha256 ((kp.map (fun b => b ^^^ 0x5c)) ++ sha256 ((kp.map (fun b => b ^^^ 0x36)) ++ msg))

/-- The standard base64 alphabet. -/
def b64chars : List Char := "ABCDEFGHIJKLMNOPQRSTUVWXYZabcdefghijklmnopqrstuvwxyz0123456789+/".data

/-- Index into the base64 alphabet. -/
def b64char (i : Nat) : Char := b64chars.getD i 'A'

/-- Encode bytes in groups of three, padding the tail with the usual
one or two trailing pad characters. -/
def b64enc : List Nat → List Char
  | [] => []
  | [a] => [b64char (a >>> 2), b64char ((a &&& 3) <<< 4), '=', '=']
  | [a, b] => [b64char (a >>> 2), b64char (((a &&& 3) <<< 4) ||| (b >>> 4)),
               b64char ((b &&& 15) <<< 2), '=']
  | a :: b :: c :: rest =>
      b64char (a >>> 2) :: b64char (((a &&& 3) <<< 4) ||| (b >>> 4)) ::
      b64char (((b &&& 15) <<< 2) ||| (c >>> 6)) :: b64char (c &&& 63) :: b64enc rest

/-- Base64-encode a byte list: the `base64::encode` primitive of the source. -/
def base64encode (bs : List Nat) : String := String.mk (b64enc bs)

/-- The value of a base64 alphabet character, `none` for anything else. -/
def b64val (c : Char) : Option Nat :=
  let n := c.toNat
  if 65 ≤ n ∧ n ≤ 90 then some (n - 65)
  else if 97 ≤ n ∧ n ≤ 122 then some (n - 71)
  else if 48 ≤ n ∧ n ≤ 57 then some (n + 4)
  else if n = 43 then some 62
  else if n = 47 then some 63
  else none

/-- Decode base64 in groups of four characters; padding is admitted only at
the very end, and any other shape (bad character, ragged length, interior
padding) fails. -/
def b64dec : List Char → Option (List Nat)
  | [] => some []
  | a :: b :: c :: d :: rest =>
    match b64val a, b64val b with
    | some va, some vb =>
      if c = '=' then
        if d = '=' ∧ rest = [] then some [(va <<< 2) ||| (vb >>> 4)] else none
      else
        match b64val c with
        | some vc =>
          if d = '=' then
            if rest = [] then
              some [(va <<< 2) ||| (vb >>> 4), ((vb &&& 15) <<< 4) ||| (vc >>> 2)]
            else none
          else
            match b64val d with
            | some vd =>
              (b64dec rest).map (fun tail =>
                ((va <<< 2) ||| (vb >>> 4)) :: (((vb &&& 15) <<< 4) ||| (vc >>> 2)) ::
                (((vc &&& 3) <<< 6) ||| vd) :: tail)
            | none => none
        | none => none
    | _, _ => none
  | _ => none

/-- Base64-decode a string: the `base64::decode` primitive of the source,
with `none` standing for its decode error. -/
def base64decode (s : String) : Option (List Nat) := b64dec s.data

/-- UTF-8 encoding of one character. -/
def utf8Char (c : Char) : List Nat :=
  let n := c.toNat
  if n < 0x80 then [n]
  else if n < 0x800 then [0xC0 ||| (n >>> 6), 0x80 ||| (n &&& 0x3F)]
  else if n < 0x10000 then
    [0xE0 ||| (n >>> 12), 0x80 ||| ((n >>> 6) &&& 0x3F), 0x80 ||| (n &&& 0x3F)]
  else
    [0xF0 ||| (n >>> 18), 0x80 ||| ((n >>> 12) &&& 0x3F),
     0x80 ||| ((n >>> 6) &&& 0x3F), 0x80 ||| (n &&& 0x3F)]

/-- The UTF-8 bytes of a string, as Rust's `str::as_bytes` exposes them. -/
def utf8Bytes (s : String) : List Nat := s.data.foldr (fun c acc => utf8Char c ++ acc) []

/-! ## The client data model and signing pipeline
(`src/private_client/private_client.rs`) -/

/-- `PrivateClient` holds the long-lived credentials and base URL
(the `reqwest` connection handle carries no verified state and is dropped). -/
structure PrivateClient where
  secret : String
  passphrase : String
  key : String
  url : String

/-- `sign_message` (private_client.rs lines 154-187): build the prehash by
successive `push_str` in source order, base64-decode the secret (the source
`expect`s on failure, modelled as `none`), HMAC-SHA256, base64-encode. -/
def sign_message (c : PrivateClient) (url : String) (body : Option String)
    (timestamp : String) (meathod : String) : Option String :=
  let prehash :=
    match body with
    | some b => ((("" ++ timestamp) ++ meathod) ++ url) ++ b
    | none => (("" ++ timestamp) ++ meathod) ++ url
  match base64decode c.secret with
  | none => none
  | some decoded_secret => some (base64encode (hmacSha256 decoded_secret (utf8Bytes prehash)))

/-- A header value passes `HeaderValue::from_str` when every byte is visible
ASCII, space, or horizontal tab. -/
def mkHeaderValue (s : String) : Option String :=
  if (utf8Bytes s).all (fun b => (decide (32 ≤ b) && decide (b < 127)) || decide (b = 9)) then
    some s
  else none

/-- `get_current_timestamp` (lines 109-114) reads the wall clock once; the
clock is embedded as a stream of readings, one consumed per read, with the
empty stream standing for `SystemTimeError`. -/
def get_current_timestamp : List String → Option String × List String
  | [] => (none, [])
  | t :: rest => (some t, rest)

/-- `access_headers` (lines 116-152): read the clock once, sign with that
very timestamp, then insert the five headers in source order; every `expect`
(clock failure, invalid secret inside `sign_message`, invalid header value)
is modelled as the `none` outcome. -/
def access_headers (c : PrivateClient) (url : String) (body : Option String)
    (meathod : String) (clock : List String) :
    Option (List (String × String)) × List String :=
  match get_current_timestamp clock with
  | (none, rest) => (none, rest)
  | (some timestamp, rest) =>
    match sign_message c url body timestamp meathod with
    | none => (none, rest)
    | some signature =>
      match mkHeaderValue "coinbase-client", mkHeaderValue c.key, mkHeaderValue signature,
            mkHeaderValue timestamp, mkHeaderValue c.passphrase with
      | some ua, some kv, some sv, some tv, some pv =>
          (some [("user-agent", ua), ("cb-access-key", kv), ("cb-access-sign", sv),
                 ("cb-access-timestamp", tv), ("cb-access-passphrase", pv)], rest)
      | _, _, _, _, _ => (none, rest)

/-! ## Query-string builders for the transfer list endpoints -/

/-- `DepositType` (lines 641-644), source spelling kept. -/
inductive DepositType where
  | Deposit
  | InternalDeposite

/-- `WithdrawType` (lines 635-638). -/
inductive WithdrawType where
  | Withdraw
  | InternalWithdraw

/-- `BeforeOrAfter` (lines 646-649). -/
inductive BeforeOrAfter where
  | Before
  | After

/-- The path built by `get_deposits` (lines 284-332): start from
`/transfers/`, append each supplied parameter with `?` the first time and
`&` thereafter via the `appended` flag, clamp the limit to 100. The flag is
not updated by the final limit branch, exactly as in the source. -/
def get_deposits_path (deposit_type : Option DepositType) (profile_id : Option String)
    (before_or_after : Option BeforeOrAfter) (limit : Option Nat) : String :=
  let url0 := "/transfers/"
  let url1 :=
    match deposit_type with
    | some DepositType.Deposit => url0 ++ "?type=deposit"
    | some DepositType.InternalDeposite => url0 ++ "?type=internal_deposit"
    | none => url0
  let appended1 := match deposit_type with | some _ => true | none => false
  let url2 :=
    match profile_id with
    | some n => if appended1 = false then url1 ++ "?profile_id=" ++ n else url1 ++ "&profile_id=" ++ n
    | none => url1
  let appended2 := match profile_id with | some _ => true | none => appended1
  let url3 :=
    match before_or_after with
    | some n =>
        (if appended2 = false then url2 ++ "?" else url2 ++ "&") ++
        (match n with | BeforeOrAfter.Before => "before" | BeforeOrAfter.After => "after")
    | none => url2
  let appended3 := match before_or_after with | some _ => true | none => appended2
  match limit with
  | some n =>
      let n2 := if 100 < n then 100 else n
      if appended3 = false then url3 ++ "?limit=" ++ toString n2 else url3 ++ "&limit=" ++ toString n2
  | none => url3

/-- The path built by `get_withdrawls` (lines 416-464), structurally the twin
of `get_deposits` with the withdraw type tokens. -/
def get_withdrawls_path (withdraw_type : Option WithdrawType) (profile_id : Option String)
    (before_or_after : Option BeforeOrAfter) (limit : Option Nat) : String :=
  let url0 := "/transfers/"
  let url1 :=
    match withdraw_type with
    | some WithdrawType.Withdraw => url0 ++ "?type=withdraw"
    | some WithdrawType.InternalWithdraw => url0 ++ "?type=internal_withdraw"
    | none => url0
  let appended1 := match withdraw_type with | some _ => true | none => false
  let url2 :=
    match profile_id with
    | some n => if appended1 = false then url1 ++ "?profile_id=" ++ n else url1 ++ "&profile_id=" ++ n
    | none => url1
  let appended2 := match profile_id with | some _ => true | none => appended1
  let url3 :=
    match before_or_after with
    | some n =>
        (if appended2 = false then url2 ++ "?" else url2 ++ "&") ++
        (match n with | BeforeOrAfter.Before => "before" | BeforeOrAfter.After => "after")
    | none => url2
  let appended3 := match before_or_after with | some _ => true | none => appended2
  match limit with
  | some n =>
      let n2 := if 100 < n then 100 else n
      if appended3 = false then url3 ++ "?limit=" ++ toString n2 else url3 ++ "&limit=" ++ toString n2
  | none => url3

/-- The bare token the builders append for `before_or_after`. -/
def renderBeforeOrAfter : BeforeOrAfter → String
  | BeforeOrAfter.Before => "before"
  | BeforeOrAfter.After => "after"

/-- The rendered deposit type parameter. -/
def renderDepositType : DepositType → String
  | DepositType.Deposit => "type=deposit"
  | DepositType.InternalDeposite => "type=internal_deposit"

/-- The rendered withdraw type parameter. -/
def renderWithdrawType : WithdrawType → String
  | WithdrawType.Withdraw => "type=withdraw"
  | WithdrawType.InternalWithdraw => "type=internal_withdraw"

/-- The spec-side view of the deposit query: the ordered list of rendered
parameters that are actually present, the limit already clamped to 100. -/
def depositParams (deposit_type : Option DepositType) (profile_id : Option String)
    (before_or_after : Option BeforeOrAfter) (limit : Option Nat) : List String :=
  (match deposit_type with | some t => [renderDepositType t] | none => []) ++
  (match profile_id with | some p => ["profile_id=" ++ p] | none => []) ++
  (match before_or_after with | some b => [renderBeforeOrAfter b] | none => []) ++
  (match limit with | some n => ["limit=" ++ toString (min n 100)] | none => [])

/-- The spec-side view of the withdrawal query parameters. -/
def withdrawParams (withdraw_type : Option WithdrawType) (profile_id : Option String)
    (before_or_after : Option BeforeOrAfter) (limit : Option Nat) : List String :=
  (match withdraw_type with | some t => [renderWithdrawType t] | none => []) ++
  (match profile_id with | some p => ["profile_id=" ++ p] | none => []) ++
  (match before_or_after with | some b => [renderBeforeOrAfter b] | none => []) ++
  (match limit with | some n => ["limit=" ++ toString (min n 100)] | none => [])

/-- Join every parameter after the first with a `&` prefix. -/
def queryTail : List String → String
  | [] => ""
  | q :: qs => "&" ++ q ++ queryTail qs

/-- The spec's append protocol: prefix the first included parameter with `?`,
every subsequent one with `&`; an empty parameter list contributes nothing. -/
def queryOfParams : List String → String
  | [] => ""
  | p :: ps => "?" ++ p ++ queryTail ps

/-! ## Request descriptors for the withdrawal POST endpoints -/

/-- The method/path pair a domain call hands to the generic POST executor. -/
structure RequestDescriptor where
  verb : String
  path : String

/-- `withdraw_to_coinbase` (lines 472-488) posts to the coinbase-account
withdrawal endpoint. -/
def withdraw_to_coinbase_request : RequestDescriptor :=
  { verb := "POST", path := "/withdrawals/coinbase-account" }

/-- `withdraw_to_crypto_address` (lines 504-526) posts to the very same
coinbase-account endpoint, not a crypto-specific one. -/
def withdraw_to_crypto_address_request : RequestDescriptor :=
  { verb := "POST", path := "/withdrawals/coinbase-account" }

/-! ## Error taxonomy (`src/error.rs` and the status branch of
`create_profile_transfer`) -/

/-- Modelled from the spec: `StatusError` is imported by private_client.rs
from `crate::error` but absent from the provided error.rs (whose `Status`
variant holds the bare status code); per the spec a status failure carries
the numeric HTTP status code and the exchange-provided message text. -/
structure StatusError where
  code : Nat
  message : String
deriving DecidableEq

/-- `ErrorKind` (error.rs lines 48-53): transport (`HTTP`), status, and
decode (`JSON`) failures; the opaque library error payloads are carried as
diagnostic strings. -/
inductive ErrorKind where
  | HTTP (diagnostic : String)
  | Status (status : StatusError)
  | JSON (diagnostic : String)
deriving DecidableEq

/-- `Error` (error.rs lines 4-7) wraps its kind. -/
structure Error where
  kind : ErrorKind
deriving DecidableEq

/-- Discriminator for the transport variant. -/
def ErrorKind.isHTTP : ErrorKind → Bool
  | ErrorKind.HTTP _ => true
  | _ => false

/-- Discriminator for the status variant. -/
def ErrorKind.isStatus : ErrorKind → Bool
  | ErrorKind.Status _ => true
  | _ => false

/-- Discriminator for the decode variant. -/
def ErrorKind.isJSON : ErrorKind → Bool
  | ErrorKind.JSON _ => true
  | _ => false

/-- An HTTP response as the decoder sees it: numeric status plus body text. -/
structure HttpResponse where
  status : Nat
  body : String

/-- `StatusCode::is_success`: the 2xx range. -/
def is_success (status : Nat) : Bool := decide (200 ≤ status) && decide (status < 300)

/-- The status-inspection tail of `create_profile_transfer` (lines 604-626):
on a non-2xx status decode the error payload's message (the reqwest-backed
`Response::json` is passed in as the external collaborator it is) and raise
a `Status` error carrying the code and that message. When that decode itself
fails, `Response::json` yields a `reqwest::Error`, and the `?` operator
converts it through the `From` conversion of error.rs lines 27-33 into the
transport (`HTTP`) kind — not the `JSON` kind. On success return the body
text. -/
def create_profile_transfer_result (decodeMsg : String → Option String)
    (resp : HttpResponse) : Except Error String :=
  if is_success resp.status then Except.ok resp.body
  else
    match decodeMsg resp.body with
    | none => Except.error { kind := ErrorKind.HTTP resp.body }
    | some msg => Except.error { kind := ErrorKind.Status { code := resp.status, message := msg } }

/-! ## Helper lemmas -/

/-- Strings with equal character data are equal. -/
lemma string_eq_of_data (a b : String) (h : a.data = b.data) : a = b := by
  cases a; cases b; exact congrArg String.mk h

/-- Appending the empty string on the right is the identity. -/
lemma append_empty_str (s : String) : s ++ "" = s := by
  apply string_eq_of_data; cases s; simp [String.append]

/-- Appending the empty string on the left is the identity. -/
lemma empty_append_str (s : String) : "" ++ s = s := by
  apply string_eq_of_data; cases s; simp [String.append]

/-- String append is associative. -/
lemma str_append_assoc (a b c : String) : a ++ b ++ c = a ++ (b ++ c) := by
  apply string_eq_of_data; cases a; cases b; cases c; simp [String.append]

/-- The source's limit clamp agrees with taking the minimum with 100. -/
lemma clamp_eq (n : Nat) : (if 100 < n then 100 else n) = min n 100 := by
  rcases le_or_lt n 100 with h | h
  · rw [if_neg (by omega), min_eq_left h]
  · rw [if_pos h, min_eq_right (by omega)]

/-- The deposits builder refines the spec's append protocol. -/
lemma get_deposits_path_eq (dt : Option DepositType) (pid : Option String)
    (boa : Option BeforeOrAfter) (lim : Option Nat) :
    get_deposits_path dt pid boa lim =
      "/transfers/" ++ queryOfParams (depositParams dt pid boa lim) := by
  rcases dt with _ | (_ | _) <;> rcases pid with _ | p <;> rcases boa with _ | (_ | _) <;>
    rcases lim with _ | n <;>
    first
      | rfl
      | (simp [get_deposits_path, depositParams, queryOfParams, queryTail,
          renderDepositType, renderBeforeOrAfter, clamp_eq, append_empty_str,
          str_append_assoc]
         rfl)

/-- The withdrawals builder refines the spec's append protocol. -/
lemma get_withdrawls_path_eq (wt : Option WithdrawType) (pid : Option String)
    (boa : Option BeforeOrAfter) (lim : Option Nat) :
    get_withdrawls_path wt pid boa lim =
      "/transfers/" ++ queryOfParams (withdrawParams wt pid boa lim) := by
  rcases wt with _ | (_ | _) <;> rcases pid with _ | p <;> rcases boa with _ | (_ | _) <;>
    rcases lim with _ | n <;>
    first
      | rfl
      | (simp [get_withdrawls_path, withdrawParams, queryOfParams, queryTail,
          renderWithdrawType, renderBeforeOrAfter, clamp_eq, append_empty_str,
          str_append_assoc]
         rfl)

/-- An absent body and an empty-string body produce the same prehash, hence
the same signature. -/
lemma sign_none_eq_some_empty (c : PrivateClient) (url ts m : String) :
    sign_message c url none ts m = sign_message c url (some "") ts m := by
  simp [sign_message, append_empty_str]

/-! ## The claims -/

/-- Claim C1: for every path, timestamp, method, and present body `b`,
`sign_message` returns the base64 encoding of HMAC-SHA256, keyed with the
base64-decoded secret, over the separator-free concatenation
timestamp ++ method ++ path ++ b; with the body absent the prehash is
exactly timestamp ++ method ++ path, the body contributing nothing. -/
theorem claim_C1_sign_prehash (c : PrivateClient) (url ts m b : String) (key : List Nat)
    (h : base64decode c.secret = some key) :
    sign_message c url (some b) ts m =
      some (base64encode (hmacSha256 key (utf8Bytes (ts ++ m ++ url ++ b)))) ∧
    sign_message c url none ts m =
      some (base64encode (hmacSha256 key (utf8Bytes (ts ++ m ++ url)))) := by
  constructor <;> simp [sign_message, h, empty_append_str]

set_option maxRecDepth 100000 in
/-- Witness for C1 at the empty (valid base64) secret. -/
theorem claim_C1_witness :
    base64decode ("" : String) = some [] ∧
    sign_message ⟨"", "pp", "kk", ""⟩ "/x" (some "B") "1" "POST" =
      some (base64encode (hmacSha256 [] (utf8Bytes ("1" ++ "POST" ++ "/x" ++ "B")))) ∧
    sign_message ⟨"", "pp", "kk", ""⟩ "/x" none "1" "GET" =
      some (base64encode (hmacSha256 [] (utf8Bytes ("1" ++ "GET" ++ "/x")))) :=
  ⟨rfl, (claim_C1_sign_prehash ⟨"", "pp", "kk", ""⟩ "/x" "1" "POST" "B" [] rfl).1,
        (claim_C1_sign_prehash ⟨"", "pp", "kk", ""⟩ "/x" "1" "GET" "B" [] rfl).2⟩

/-- Claim C2, counterexample: at a concrete secret, path, timestamp and
method, the signature with the body absent EQUALS the signature with an
empty-string body, refuting the claim that they always differ. -/
theorem claim_C2_counterexample :
    sign_message ⟨"", "pp", "kk", ""⟩ "/accounts" none "1" "GET" =
    sign_message ⟨"", "pp", "kk", ""⟩ "/accounts" (some "") "1" "GET" :=
  sign_none_eq_some_empty _ _ _ _

/-- Claim C2 as amended: for every secret, path, timestamp, and method, the
signature produced with body absent equals the one produced with an
empty-string body, since pushing an empty body adds nothing to the prehash. -/
theorem claim_C2_amended_none_eq_empty (c : PrivateClient) (url ts m : String) :
    sign_message c url none ts m = sign_message c url (some "") ts m :=
  sign_none_eq_some_empty c url ts m

/-- Claim C3: whenever `access_headers` succeeds, the CB-ACCESS-TIMESTAMP
header holds the very string obtained from the single clock read, the
CB-ACCESS-SIGN header holds `sign_message` applied to that same string, and
exactly one clock reading was consumed. -/
theorem claim_C3_timestamp_consistency (c : PrivateClient) (url : String) (body : Option String)
    (m t : String) (rest : List String) (hm : List (String × String)) (rest_out : List String)
    (h : access_headers c url body m (t :: rest) = (some hm, rest_out)) :
    hm.lookup "cb-access-timestamp" = some t ∧
    hm.lookup "cb-access-sign" = sign_message c url body t m ∧
    rest_out = rest := by
  simp only [access_headers, get_current_timestamp] at h
  cases hs : sign_message c url body t m with
  | none => rw [hs] at h; simp at h
  | some sg =>
    rw [hs] at h
    have hua : mkHeaderValue "coinbase-client" = some "coinbase-client" := by rfl
    rw [hua] at h
    cases hk : mkHeaderValue c.key with
    | none => simp [hk] at h
    | some kv =>
      cases hsv : mkHeaderValue sg with
      | none => simp [hk, hsv] at h
      | some sv =>
        cases htv : mkHeaderValue t with
        | none => simp [hk, hsv, htv] at h
        | some tv =>
          cases hpv : mkHeaderValue c.passphrase with
          | none => simp [hk, hsv, htv, hpv] at h
          | some pv =>
            simp only [hk, hsv, htv, hpv] at h
            injection h with h1 h2
            injection h1 with h1
            subst h1
            subst h2
            unfold mkHeaderValue at hsv htv
            split at hsv
            · injection hsv with hsv
              subst hsv
              split at htv
              · injection htv with htv
                subst htv
                refine ⟨?_, ?_, rfl⟩ <;> simp +decide [List.lookup]
              · exact Option.noConfusion htv
            · exact Option.noConfusion hsv

set_option maxRecDepth 100000 in
/-- Witness for C3: a concrete successful header build. -/
theorem claim_C3_witness :
    access_headers ⟨"", "pp", "kk", ""⟩ "/x" none "GET" ["1"] =
      (some [("user-agent", "coinbase-client"), ("cb-access-key", "kk"),
             ("cb-access-sign", "KtGIAucokP2yR7/7UnmFhnlFm0vOeF2eFDSxllKNPzk="),
             ("cb-access-timestamp", "1"), ("cb-access-passphrase", "pp")], []) ∧
    ([("user-agent", "coinbase-client"), ("cb-access-key", "kk"),
      ("cb-access-sign", "KtGIAucokP2yR7/7UnmFhnlFm0vOeF2eFDSxllKNPzk="),
      ("cb-access-timestamp", "1"),
      ("cb-access-passphrase", "pp")].lookup "cb-access-timestamp" = some "1" ∧
     [("user-agent", "coinbase-client"), ("cb-access-key", "kk"),
      ("cb-access-sign", "KtGIAucokP2yR7/7UnmFhnlFm0vOeF2eFDSxllKNPzk="),
      ("cb-access-timestamp", "1"),
      ("cb-access-passphrase", "pp")].lookup "cb-access-sign" =
        sign_message ⟨"", "pp", "kk", ""⟩ "/x" none "1" "GET" ∧
     ([] : List String) = ([] : List String)) :=
  ⟨by rfl,
   claim_C3_timestamp_consistency ⟨"", "pp", "kk", ""⟩ "/x" none "GET" "1" [] _ [] (by rfl)⟩

/-- Claim C4: every error kind is exactly one of the three non-overlapping
variants — transport, status, decode — and the status branch of
`create_profile_transfer` raises a status failure carrying both the numeric
HTTP status code and the exchange-provided message; an unparseable error
payload surfaces through the `From` conversion of its `reqwest::Error` as
the transport kind, and a 2xx response is no error at all. -/
theorem claim_C4_error_taxonomy :
    (∀ k : ErrorKind, k.isHTTP.toNat + k.isStatus.toNat + k.isJSON.toNat = 1) ∧
    (∀ (dm : String → Option String) (resp : HttpResponse) (msg : String),
      is_success resp.status = false → dm resp.body = some msg →
      create_profile_transfer_result dm resp =
        Except.error { kind := ErrorKind.Status { code := resp.status, message := msg } }) ∧
    (∀ (dm : String → Option String) (resp : HttpResponse),
      is_success resp.status = false → dm resp.body = none →
      create_profile_transfer_result dm resp =
        Except.error { kind := ErrorKind.HTTP resp.body }) ∧
    (∀ (dm : String → Option String) (resp : HttpResponse),
      is_success resp.status = true →
      create_profile_transfer_result dm resp = Except.ok resp.body) := by
  refine ⟨?_, ?_, ?_, ?_⟩
  · intro k; cases k <;> rfl
  · intro dm resp msg hs hd; simp [create_profile_transfer_result, hs, hd]
  · intro dm resp hs hd; simp [create_profile_transfer_result, hs, hd]
  · intro dm resp hs; simp [create_profile_transfer_result, hs]

/-- Witness for C4: a 400 response with message decoder yields the status
failure carrying 400 and the exact message. -/
theorem claim_C4_witness :
    is_success 400 = false ∧
    (fun _ : String => some "Insufficient funds") "bad" = some "Insufficient funds" ∧
    create_profile_transfer_result (fun _ => some "Insufficient funds") ⟨400, "bad"⟩ =
      Except.error { kind := ErrorKind.Status { code := 400, message := "Insufficient funds" } } :=
  ⟨rfl, rfl,
   claim_C4_error_taxonomy.2.1 (fun _ => some "Insufficient funds") ⟨400, "bad"⟩
     "Insufficient funds" rfl rfl⟩

/-- Claim C5: both transfer-list builders follow the append protocol — the
first included parameter prefixed with a question mark, every later one with
an ampersand, absent parameters contributing nothing, the limit clamped to
at most 100 — and the concrete deposit query with limit 500 clamps to 100. -/
theorem claim_C5_query_append_protocol :
    (∀ (dt : Option DepositType) (pid : Option String) (boa : Option BeforeOrAfter)
       (lim : Option Nat),
      get_deposits_path dt pid boa lim =
        "/transfers/" ++ queryOfParams (depositParams dt pid boa lim)) ∧
    (∀ (wt : Option WithdrawType) (pid : Option String) (boa : Option BeforeOrAfter)
       (lim : Option Nat),
      get_withdrawls_path wt pid boa lim =
        "/transfers/" ++ queryOfParams (withdrawParams wt pid boa lim)) ∧
    get_deposits_path (some DepositType.Deposit) (some "p1") none (some 500) =
      "/transfers/?type=deposit&profile_id=p1&limit=100" :=
  ⟨get_deposits_path_eq, get_withdrawls_path_eq, by rfl⟩

/-- Claim C6: with all four optional parameters absent, `get_deposits`
requests the bare path with no query string. -/
theorem claim_C6_no_query : get_deposits_path none none none none = "/transfers/" := rfl

/-- Claim C7: `sign_message` is deterministic — it is a pure function of the
secret and the explicit arguments, so any two clients with the same secret
sign identically. -/
theorem claim_C7_sign_deterministic (c1 c2 : PrivateClient) (url : String)
    (body : Option String) (ts m : String) (h : c1.secret = c2.secret) :
    sign_message c1 url body ts m = sign_message c2 url body ts m := by
  simp [sign_message, h]

/-- Witness for C7: two clients differing everywhere but the secret. -/
theorem claim_C7_witness :
    (PrivateClient.mk "" "a" "b" "c").secret = (PrivateClient.mk "" "x" "y" "z").secret ∧
    sign_message (PrivateClient.mk "" "a" "b" "c") "/x" none "1" "GET" =
      sign_message (PrivateClient.mk "" "x" "y" "z") "/x" none "1" "GET" :=
  ⟨rfl, claim_C7_sign_deterministic _ _ "/x" none "1" "GET" rfl⟩

/-- Claim C8: signing aborts (modelled as `none`) exactly when the secret is
not valid base64; under a decodable secret the failure branch is unreachable
and a signature is always produced. -/
theorem claim_C8_secret_decode_fatal (c : PrivateClient) (url : String) (body : Option String)
    (ts m : String) :
    (sign_message c url body ts m).isSome = (base64decode c.secret).isSome ∧
    (base64decode c.secret = none → sign_message c url body ts m = none) := by
  constructor
  · cases hsec : base64decode c.secret <;> simp [sign_message, hsec]
  · intro hsec; simp [sign_message, hsec]

/-- Witness for C8: an invalid-base64 secret makes signing abort. -/
theorem claim_C8_witness :
    base64decode ("!" : String) = none ∧
    sign_message ⟨"!", "pp", "kk", ""⟩ "/x" none "1" "GET" = none :=
  ⟨rfl, (claim_C8_secret_decode_fatal ⟨"!", "pp", "kk", ""⟩ "/x" none "1" "GET").2 rfl⟩

/-- Claim C9: `withdraw_to_crypto_address` posts to the coinbase-account
withdrawal endpoint — the very endpoint `withdraw_to_coinbase` uses — not to
a crypto-specific one. -/
theorem claim_C9_crypto_withdraw_same_endpoint :
    withdraw_to_crypto_address_request.path = withdraw_to_coinbase_request.path ∧
    withdraw_to_crypto_address_request.path = "/withdrawals/coinbase-account" ∧
    withdraw_to_crypto_address_request.verb = "POST" :=
  ⟨rfl, rfl, rfl⟩

/-- Claim C10: a supplied `before_or_after` contributes only the bare token
`before` or `after` — prefixed with the question mark in first position and
the ampersand otherwise — with no equals sign and no attached value, in both
builders. -/
theorem claim_C10_bare_before_after_token :
    ∀ (b : BeforeOrAfter) (p : String),
      get_deposits_path none none (some b) none = "/transfers/?" ++ renderBeforeOrAfter b ∧
      get_deposits_path none (some p) (some b) none =
        "/transfers/" ++ "?profile_id=" ++ p ++ "&" ++ renderBeforeOrAfter b ∧
      get_withdrawls_path none none (some b) none = "/transfers/?" ++ renderBeforeOrAfter b ∧
      get_withdrawls_path none (some p) (some b) none =
        "/transfers/" ++ "?profile_id=" ++ p ++ "&" ++ renderBeforeOrAfter b ∧
      ((renderBeforeOrAfter b).data.all fun c => c != '=') = true ∧
      (renderBeforeOrAfter b = "before" ∨ renderBeforeOrAfter b = "after") := by
  intro b p
  cases b <;> refine ⟨rfl, rfl, rfl, rfl, by decide, ?_⟩
  · left; rfl
  · right; rfl
